import Mathlib

/-!
Shallow embedding of the database resilience layer of `src/server.py`
(class `Database`, its bootstrap routines, and the HTTP handlers that
consume its sentinel return values).

Machine-level effects (pool construction over the network, driver calls,
statement execution) are modelled by explicit environment/oracle values;
the Python object state (`self.pool`, `self._initialized`,
`self._connection_error`, `self._error_count`, `self._max_retries`) is the
`PoolState` structure, threaded explicitly.
-/

/-- Substring utilities: `strContains hay needle` models Python's
`needle in hay` on strings. -/
def isPre : List Char → List Char → Bool
  | [], _ => true
  | _ :: _, [] => false
  | a :: as, b :: bs => a == b && isPre as bs

def hasSubAux (needle : List Char) : List Char → Bool
  | [] => isPre needle []
  | h :: t => isPre needle (h :: t) || hasSubAux needle t

def strContains (hay needle : String) : Bool :=
  hasSubAux needle.toList hay.toList

/-- The two transient-fault signatures text-matched by the code
(`"bytearray index out of range" in str(e)` and
`"MySQL Connection not available" in str(e)`). -/
def hasSig (m : String) : Bool :=
  strContains m "bytearray index out of range" ||
  strContains m "MySQL Connection not available"

/-- The mutable fields of the Python `Database` object that govern the
pool lifecycle.  `poolGen` counts actual `MySQLConnectionPool(**cfg)`
constructions (a rebuild is visible as a `poolGen` increase);
`poolExists` is `self.pool is not None`, `inited` is `self._initialized`,
`connectionError` is `self._connection_error`, `errorCount` is
`self._error_count`, `maxRetries` is `self._max_retries` (3 in
`__init__`). -/
structure PoolState where
  poolExists : Bool
  poolGen : Nat
  inited : Bool
  connectionError : Bool
  errorCount : Nat
  maxRetries : Nat
deriving DecidableEq

/-- State set up by `Database.__init__` (lines 45-49 of server.py). -/
def dbInitState : PoolState :=
  { poolExists := false, poolGen := 0, inited := false,
    connectionError := false, errorCount := 0, maxRetries := 3 }

/-- Result of `_init_pool`: the returned boolean, the updated object
state, and whether a pool construction (network I/O) was attempted. -/
structure InitOut where
  ok : Bool
  state : PoolState
  attemptedNet : Bool
deriving DecidableEq

/-- `Database._init_pool` (lines 53-97).  The environment boolean `initOk`
says whether `MySQLConnectionPool(**pool_config)` would succeed now.
If `self.pool` already exists the function returns `True` immediately
without constructing anything; on success it sets `_initialized = True`,
`_connection_error = False`, `_error_count = 0`; on failure it sets
`_connection_error = True`, increments `_error_count`, and leaves
`self.pool = None`. -/
def init_pool (s : PoolState) (initOk : Bool) : InitOut :=
  if s.poolExists then ⟨true, s, false⟩
  else if initOk then
    ⟨true,
     { s with
       poolExists := true
       poolGen := s.poolGen + 1
       inited := true
       connectionError := false
       errorCount := 0 },
     true⟩
  else
    ⟨false, { s with connectionError := true, errorCount := s.errorCount + 1 },
     true⟩

/-- Observable behaviour of `self.pool.get_connection()` followed by the
`conn.is_connected()` check: a healthy connection, an inactive one, or a
raised exception carrying a message. -/
inductive AcqOutcome where
  | ok
  | inactive
  | exn (msg : String)
deriving DecidableEq

/-- Environment for one `get_connection` call: whether a pool
construction would succeed, and what acquiring from an existing pool
would do. -/
structure GetEnv where
  initOk : Bool
  acq : AcqOutcome
deriving DecidableEq

/-- Result of `get_connection`: the value returned to the caller
(`some ()` = a connection, `none` = the Unavailable sentinel), the
updated object state, whether pool construction (network I/O in
`_init_pool`) was attempted during the call, and whether
`pool.get_connection()` (network-facing acquisition) was attempted. -/
structure GetOut where
  conn : Option Unit
  state : PoolState
  initNet : Bool
  acqNet : Bool
deriving DecidableEq

/-- Lines 107-144 of `Database.get_connection`: the retry-ceiling gate,
the pooled-acquisition branch with its `except` clause (which increments
`_error_count` and calls `_init_pool` when the message matches a
transient-fault signature), and the `else` branch that re-attempts
initialization while `_error_count <= _max_retries`. -/
def getConnRest (s : PoolState) (env : GetEnv) (io0 : Bool) : GetOut :=
  if s.connectionError ∧ s.maxRetries < s.errorCount then ⟨none, s, io0, false⟩
  else if s.poolExists then
    match env.acq with
    | .ok => ⟨some (), s, io0, true⟩
    | .inactive => ⟨none, s, io0, true⟩
    | .exn m =>
      let s1 := { s with errorCount := s.errorCount + 1 }
      let r := if hasSig m then init_pool s1 env.initOk else ⟨true, s1, false⟩
      ⟨none, r.state, io0 || r.attemptedNet, true⟩
  else
    if s.errorCount ≤ s.maxRetries then
      let r := init_pool s env.initOk
      if r.state.poolExists then
        match env.acq with
        | .ok => ⟨some (), r.state, io0 || r.attemptedNet, true⟩
        | .inactive => ⟨some (), r.state, io0 || r.attemptedNet, true⟩
        | .exn m =>
          let s1 := { r.state with errorCount := r.state.errorCount + 1 }
          let r2 := if hasSig m then init_pool s1 env.initOk else ⟨true, s1, false⟩
          ⟨none, r2.state, io0 || r.attemptedNet || r2.attemptedNet, true⟩
      else ⟨none, r.state, io0 || r.attemptedNet, false⟩
    else ⟨none, s, io0, false⟩

/-- `Database.get_connection` (lines 99-144).  The first block
(line 103): if `self.pool` is `None` and `self._initialized` is false,
call `_init_pool` and return `None` when it fails; otherwise continue
with the body modelled by `getConnRest`. -/
def get_connection (s : PoolState) (env : GetEnv) : GetOut :=
  if ¬ s.poolExists ∧ ¬ s.inited then
    let r := init_pool s env.initOk
    if ¬ r.ok then ⟨none, r.state, r.attemptedNet, false⟩
    else getConnRest r.state env r.attemptedNet
  else getConnRest s env false

/-- A fault raised by the driver inside the `try` body of
`execute_select` / `execute_write`: `dbError` is a
`mysql.connector.Error` (caught by the first `except Error` clause),
`otherExn` is any other `Exception` (caught by the second
`except Exception` clause).  Together these cover every exception the
driver can raise, which is why the executor never re-raises. -/
inductive ExecFault where
  | dbError (msg : String)
  | otherExn (msg : String)
deriving DecidableEq

/-- Outcome of running the statement on an acquired connection: either
the driver-produced value (rows for a SELECT, `cursor.rowcount` for a
write) or a fault. -/
inductive StmtResult (α : Type) where
  | ok (v : α)
  | fault (f : ExecFault)
deriving DecidableEq

/-- Environment for one executor call: the acquisition environment, the
statement outcome, and whether the `finally`-block `close()` calls would
themselves raise (the code swallows that with a nested `try/except
pass`). -/
structure ExecEnv (α : Type) where
  genv : GetEnv
  stmt : StmtResult α
  cleanupFails : Bool
deriving DecidableEq

/-- Result of an executor call: the value returned to the caller
(`none` is the unavailable/fault sentinel), whether an exception escaped
the function, the updated pool state, whether a connection was acquired,
whether closing the cursor/connection was attempted in the `finally`
block, and whether `_init_pool` (the error hook) was invoked from the
`except Error` clause. -/
structure ExecOut (α : Type) where
  result : Option α
  raised : Bool
  state : PoolState
  connAcquired : Bool
  connCloseTried : Bool
  initPoolCalled : Bool
deriving DecidableEq

/-- `Database.execute_select` (lines 161-204).  Acquire a connection
(sentinel `None` on failure); run the statement; on a driver `Error`
whose message matches a transient-fault signature call `_init_pool`;
absorb every fault into a `None` return; the `finally` block attempts to
close cursor and connection on every exit path, swallowing its own
failures. -/
def execute_select {α : Type} (s : PoolState) (env : ExecEnv α) : ExecOut α :=
  let g := get_connection s env.genv
  match g.conn with
  | none => ⟨none, false, g.state, false, false, false⟩
  | some _ =>
    match env.stmt with
    | .ok v => ⟨some v, false, g.state, true, true, false⟩
    | .fault (.dbError m) =>
      if hasSig m then
        ⟨none, false, (init_pool g.state env.genv.initOk).state, true, true, true⟩
      else ⟨none, false, g.state, true, true, false⟩
    | .fault (.otherExn _) => ⟨none, false, g.state, true, true, false⟩

/-- `Database.execute_write` (lines 206-263).  Same acquisition and fault
discipline as `execute_select`; on success commits and returns
`cursor.rowcount`; on a fault attempts a best-effort rollback (failures
swallowed) and returns `None`. -/
def execute_write (s : PoolState) (env : ExecEnv Nat) : ExecOut Nat :=
  let g := get_connection s env.genv
  match g.conn with
  | none => ⟨none, false, g.state, false, false, false⟩
  | some _ =>
    match env.stmt with
    | .ok n => ⟨some n, false, g.state, true, true, false⟩
    | .fault (.dbError m) =>
      if hasSig m then
        ⟨none, false, (init_pool g.state env.genv.initOk).state, true, true, true⟩
      else ⟨none, false, g.state, true, true, false⟩
    | .fault (.otherExn _) => ⟨none, false, g.state, true, true, false⟩

/-- Uniform external-world assumptions for a bootstrap run:
`reachable` — pool construction, pooled acquisition and the raw
`SELECT 1` liveness probe in `is_connected` succeed; `selectOk` /
`writeOk` — SELECT / write statements issued through the executor
succeed at the driver level. -/
structure World where
  reachable : Bool
  selectOk : Bool
  writeOk : Bool
deriving DecidableEq

/-- Acquisition environment induced by a `World`: with the server down,
`pool.get_connection()` raises a connect error whose message matches
neither transient-fault signature. -/
def envOf (w : World) : GetEnv :=
  ⟨w.reachable,
   if w.reachable then .ok else .exn "2003: Cannot connect to MySQL server"⟩

/-- `Database.is_connected` (lines 146-159): acquire a connection, run a
raw `SELECT 1` probe (success iff the server is reachable), close, and
return the boolean; any failure yields `False` (the surrounding
`try/except` absorbs it). -/
def is_connected (s : PoolState) (w : World) : Bool × PoolState :=
  let g := get_connection s (envOf w)
  match g.conn with
  | some _ => (w.reachable, g.state)
  | none => (false, g.state)

/-- A bootstrap-level `execute_select` call: the statement result, when
the driver executes it, is the list `rows` read from the current
database contents. -/
def bSelect {α : Type} (w : World) (s : PoolState) (rows : List α) :
    Option (List α) × PoolState :=
  let e := execute_select s
    ⟨envOf w,
     if w.selectOk then .ok rows else .fault (.dbError "statement failed"),
     false⟩
  (e.result, e.state)

/-- A bootstrap-level `execute_write` call: `stmtOk` is statement-level
success (false e.g. on a unique-key violation), `n` the rowcount the
driver would report. -/
def bWrite (w : World) (s : PoolState) (stmtOk : Bool) (n : Nat) :
    Option Nat × PoolState :=
  let e := execute_write s
    ⟨envOf w,
     if w.writeOk && stmtOk then .ok n else .fault (.dbError "statement failed"),
     false⟩
  (e.result, e.state)

/-- A row of the `admin_users` table, with the columns
`fix_database_issues` inserts. -/
structure AdminRow where
  username : String
  password_hash : String
  full_name : String
  email : String
  role : String
  is_active : Bool
deriving DecidableEq

/-- Relational contents relevant to the bootstrap sequence: which tables
exist, the `admin_users` rows and the `settings` rows
(`setting_key`, `setting_value`).  `admin_users.username` and
`settings.setting_key` carry UNIQUE constraints (see `create_tables`),
so a duplicate insert is a driver error. -/
structure Contents where
  tables : List String
  admins : List AdminRow
  settings : List (String × String)
deriving DecidableEq

/-- Effect of `CREATE TABLE IF NOT EXISTS t`: record the table if absent. -/
def addTable (c : Contents) (t : String) : Contents :=
  if c.tables.contains t then c else { c with tables := c.tables ++ [t] }

/-- The default admin row inserted by `fix_database_issues`
(lines 383-394), parameterised by the bcrypt hash (which is salted, hence
an input). -/
def defaultAdmin (h : String) : AdminRow :=
  ⟨"admin", h, "المسؤول الرئيسي", "admin@hawkstudio.com", "admin", true⟩

/-- The four tables created by `create_tables`, in source order. -/
def tableNames : List String :=
  ["projects", "project_requests", "admin_users", "settings"]

/-- One iteration of the `create_tables` loop (lines 332-338): run the
`CREATE TABLE IF NOT EXISTS` write; on a non-`None` result count a
success and record the table. -/
def ctStep (w : World) (acc : Nat × PoolState × Contents) (t : String) :
    Nat × PoolState × Contents :=
  let (cnt, s, c) := acc
  let (r, s') := bWrite w s true 0
  match r with
  | some _ => (cnt + 1, s', addTable c t)
  | none => (cnt, s', c)

/-- `Database.create_tables` (lines 265-348): four independent
`CREATE TABLE IF NOT EXISTS` statements; returns `success_count > 0`. -/
def create_tables (w : World) (s : PoolState) (c : Contents) :
    Bool × PoolState × Contents :=
  let (cnt, s', c') := tableNames.foldl (ctStep w) (0, s, c)
  (decide (0 < cnt), s', c')

/-- The fixed default settings seeded by `fix_database_issues`
(lines 402-411), in source order. -/
def basic_settings : List (String × String) :=
  [("site_title", "HawkStudio"),
   ("site_description", "هندسة الويب بمنهجية البرمجيات أولاً"),
   ("admin_email", "admin@hawkstudio.com"),
   ("contact_email", "hawkstudiio@gmail.com"),
   ("contact_phone", "+961 71 235 414"),
   ("contact_address", "لبنان - البقاع - تعلبايا"),
   ("maintenance_mode", "disabled"),
   ("maintenance_message", "نحن نقوم بإجراء بعض التحسينات على الموقع وسنعود قريباً.")]

/-- Python truthiness test `if not r:` applied to an `execute_select`
result: `None` and the empty list are falsy. -/
def pyFalsy {α : Type} : Option (List α) → Bool
  | none => true
  | some [] => true
  | some (_ :: _) => false

/-- One iteration of the settings loop (lines 413-421): select the
setting by key; if the result is falsy, insert the pair.  The insert hits
the UNIQUE key on `setting_key`, so it only succeeds when the key is
absent. -/
def insertSettingStep (w : World) (acc : PoolState × Contents)
    (kv : String × String) : PoolState × Contents :=
  let (s, c) := acc
  let (found, s1) :=
    bSelect w s ((c.settings.filter (fun p => p.1 == kv.1)).map Prod.snd)
  if pyFalsy found then
    let (r, s2) := bWrite w s1 (! c.settings.any (fun p => p.1 == kv.1)) 1
    match r with
    | some _ => (s2, { c with settings := c.settings ++ [kv] })
    | none => (s2, c)
  else (s1, c)

/-- The informational table-presence checks (lines 360-370): four
SELECTs against `INFORMATION_SCHEMA.TABLES`; results only printed, so
only the pool state is threaded. -/
def checkTablesStep (w : World) (c : Contents) (s : PoolState) (t : String) :
    PoolState :=
  (bSelect w s (if c.tables.contains t then [t] else [])).2

/-- The tables probed by the informational check, in source order. -/
def tablesToCheck : List String :=
  ["admin_users", "settings", "projects", "project_requests"]

/-- `Database.fix_database_issues` (lines 350-428): bail out with `False`
if `is_connected` fails; informational table checks; create the default
admin account if the `username = 'admin'` SELECT comes back falsy; insert
each missing default setting; return `True`. -/
def fix_database_issues (w : World) (h : String) (s : PoolState)
    (c : Contents) : Bool × PoolState × Contents :=
  let p := is_connected s w
  if ¬ p.1 then (false, p.2, c)
  else
    let s1 := tablesToCheck.foldl (checkTablesStep w c) p.2
    let (ar, s2) := bSelect w s1 (c.admins.filter (fun a => a.username == "admin"))
    let (s3, c1) :=
      if pyFalsy ar then
        let (r, s') := bWrite w s2 (! c.admins.any (fun a => a.username == "admin")) 1
        match r with
        | some _ => (s', { c with admins := c.admins ++ [defaultAdmin h] })
        | none => (s', c)
      else (s2, c)
    let (s4, c2) := basic_settings.foldl (insertSettingStep w) (s3, c1)
    (true, s4, c2)

/-- Result of `setup_database`: returned boolean, final pool state and
contents, and whether the table-creation statements were attempted. -/
structure SetupOut where
  ok : Bool
  state : PoolState
  contents : Contents
  createAttempted : Bool
deriving DecidableEq

/-- `Database.setup_database` (lines 430-457): probe `is_connected`; on
failure return `False` without touching the schema; otherwise run
`create_tables` and `fix_database_issues`, ignoring both boolean
results, and return `True`. -/
def setup_database (w : World) (h : String) (s : PoolState) (c : Contents) :
    SetupOut :=
  let p := is_connected s w
  if ¬ p.1 then ⟨false, p.2, c, false⟩
  else
    let q := create_tables w p.2 c
    let r := fix_database_issues w h q.2.1 q.2.2
    ⟨true, r.2.1, r.2.2, true⟩

/-- The JSON envelope built by `create_response` (lines 553-563):
`{success, message, data}` plus an `error` key added when
`not success and status != 200`, together with the HTTP status code. -/
structure Resp (α : Type) where
  success : Bool
  message : String
  data : α
  status : Nat
  errorField : Option String
deriving DecidableEq

/-- `create_response(data, message, status, success)` (lines 553-563). -/
def create_response {α : Type} (data : α) (message : String) (status : Nat)
    (success : Bool) : Resp α :=
  ⟨success, message, data, status,
   if ¬ success ∧ status ≠ 200 then some message else none⟩

/-- A row of `projects` as the listing handler sees it (the handler only
re-serialises date fields, leaving string fields unchanged, so string
fields suffice). -/
structure Project where
  title : String
  category : String
  description : String
deriving DecidableEq

/-- `get_projects` (lines 745-770), as a function of what
`db.execute_select` returned: on the `None` sentinel it answers with a
200 success envelope carrying an empty list; on rows it answers with a
200 success envelope carrying them. -/
def get_projects (res : Option (List Project)) : Resp (List Project) :=
  match res with
  | none => create_response [] "لا توجد مشاريع حالياً" 200 true
  | some ps => create_response ps "تم جلب المشاريع بنجاح" 200 true

/-- The request body fields read by `create_project_request`; `none`
models an absent key (`data.get(field)` returning `None`). -/
structure ReqData where
  name : Option String
  email : Option String
  project_type : Option String
  description : Option String
deriving DecidableEq

/-- Python truthiness of `data.get(field)`: absent or empty string is
falsy. -/
def falsyStr : Option String → Bool
  | none => true
  | some s => s == ""

/-- `create_project_request` (lines 797-831), as a function of the
request fields and of what `db.execute_write` returned for the INSERT:
missing required fields give 400; the `None` sentinel gives a 503 error
envelope; success gives 201. -/
def create_project_request (d : ReqData) (writeRes : Option Nat) :
    Resp (Option Unit) :=
  if falsyStr d.name then create_response none "حقل name مطلوب" 400 false
  else if falsyStr d.email then create_response none "حقل email مطلوب" 400 false
  else if falsyStr d.description then
    create_response none "حقل description مطلوب" 400 false
  else
    match writeRes with
    | none =>
      create_response none "فشل في حفظ الطلب - قاعدة البيانات غير متاحة" 503 false
    | some _ => create_response none "تم استلام طلبك بنجاح" 201 true

/-- The `/api/admin/fix-database` handler (lines 1287-1301), as a
function of the boolean `db.setup_database()` returned. -/
def fix_database (setupOk : Bool) : Resp (Option Unit) :=
  if setupOk then create_response none "تم إصلاح قاعدة البيانات بنجاح" 200 true
  else create_response none "فشل في إصلاح قاعدة البيانات" 500 false

/-- What the root route serves. -/
inductive Page where
  | home
  | maintenanceRedirect
deriving DecidableEq

/-- `main_index` (lines 570-589), as a function of what
`db.execute_select` returned for the `maintenance_mode` setting: a row is
the (nullable) `setting_value` column.  `maintenance_mode` defaults to
`'disabled'`; a first row replaces it with
`row['setting_value'] or 'disabled'` (so NULL and the empty string fall
back to `'disabled'`); the maintenance redirect happens only when the
resulting string equals `'enabled'`. -/
def main_index (res : Option (List (Option String))) : Page :=
  let m : String :=
    match res with
    | some (v :: _) =>
      (match v with
       | some s => if s == "" then "disabled" else s
       | none => "disabled")
    | _ => "disabled"
  if m == "enabled" then .maintenanceRedirect else .home

/-- The fully healthy world: server reachable, all statements succeed. -/
def wGood : World := ⟨true, true, true⟩

theorem envOf_wGood : envOf wGood = ⟨true, .ok⟩ := rfl

theorem wGood_re : wGood.reachable = true := rfl

theorem wGood_sel : wGood.selectOk = true := rfl

theorem wGood_wr : wGood.writeOk = true := rfl

theorem hasSig_stmt_failed : hasSig "statement failed" = false := by decide

/-- With an existing pool, no recorded connection error and a healthy
acquisition environment, `get_connection` hands out a connection and
leaves the object state unchanged. -/
theorem goodGet (s : PoolState) (hp : s.poolExists = true)
    (hc : s.connectionError = false) :
    get_connection s ⟨true, .ok⟩ = ⟨some (), s, false, true⟩ := by
  simp [get_connection, getConnRest, hp, hc]

/-- The state produced by a successful `_init_pool` from an
uninitialized state. -/
def reInit (s : PoolState) : PoolState :=
  { s with
    poolExists := true
    poolGen := s.poolGen + 1
    inited := true
    connectionError := false
    errorCount := 0 }

/-- From an uninitialized state with a reachable server,
`get_connection` builds the pool and hands out a connection. -/
theorem get_connection_uninit (s : PoolState) (hp : s.poolExists = false)
    (hi : s.inited = false) :
    get_connection s ⟨true, .ok⟩ = ⟨some (), reInit s, true, true⟩ := by
  simp [get_connection, getConnRest, init_pool, hp, hi, reInit]

theorem goodGetW (s : PoolState) (hp : s.poolExists = true)
    (hc : s.connectionError = false) :
    get_connection s (envOf wGood) = ⟨some (), s, false, true⟩ := by
  rw [envOf_wGood]; exact goodGet s hp hc

theorem get_connection_uninitW (s : PoolState) (hp : s.poolExists = false)
    (hi : s.inited = false) :
    get_connection s (envOf wGood) = ⟨some (), reInit s, true, true⟩ := by
  rw [envOf_wGood]; exact get_connection_uninit s hp hi

/-- With the server unreachable, `get_connection` always returns the
sentinel, whatever the object state. -/
theorem get_connection_unreachable (s : PoolState) (w : World)
    (hw : w.reachable = false) :
    (get_connection s (envOf w)).conn = none := by
  have he : envOf w = ⟨false, .exn "2003: Cannot connect to MySQL server"⟩ := by
    simp [envOf, hw]
  rw [he]
  unfold get_connection getConnRest init_pool
  rcases hpe : s.poolExists <;> rcases hin : s.inited <;>
    simp [hpe, hin] <;> split <;> simp_all <;> split <;> simp_all

theorem bSelect_good {α : Type} (s : PoolState) (rows : List α)
    (hp : s.poolExists = true) (hc : s.connectionError = false) :
    bSelect wGood s rows = (some rows, s) := by
  simp [bSelect, execute_select, goodGetW s hp hc, wGood_sel]

theorem bWrite_good (s : PoolState) (stmtOk : Bool) (n : Nat)
    (hp : s.poolExists = true) (hc : s.connectionError = false) :
    bWrite wGood s stmtOk n = ((if stmtOk then some n else none), s) := by
  rcases stmtOk <;>
    simp [bWrite, execute_write, goodGetW s hp hc, wGood_wr,
      hasSig_stmt_failed]

theorem is_connected_good (s : PoolState) (hp : s.poolExists = true)
    (hc : s.connectionError = false) :
    is_connected s wGood = (true, s) := by
  simp [is_connected, goodGetW s hp hc, wGood_re]

theorem is_connected_uninit (s : PoolState) (hp : s.poolExists = false)
    (hi : s.inited = false) :
    is_connected s wGood = (true, reInit s) := by
  simp [is_connected, get_connection_uninitW s hp hi, wGood_re]

/-- Pure effect of the `create_tables` loop on contents in a healthy
world. -/
def ctPure (c : Contents) : Contents := tableNames.foldl addTable c

/-- Pure effect of the default-admin repair step on contents in a
healthy world: the `username = 'admin'` SELECT comes back empty exactly
when no such row exists, and then the INSERT succeeds. -/
def aStep (h : String) (c : Contents) : Contents :=
  if (c.admins.filter (fun a => a.username == "admin")).isEmpty then
    { c with admins := c.admins ++ [defaultAdmin h] }
  else c

/-- Pure effect of one settings-seeding iteration on contents in a
healthy world. -/
def sStep (c : Contents) (kv : String × String) : Contents :=
  if (c.settings.filter (fun p => p.1 == kv.1)).isEmpty then
    { c with settings := c.settings ++ [kv] }
  else c

/-- Pure effect of `fix_database_issues` on contents in a healthy
world. -/
def fixPure (h : String) (c : Contents) : Contents :=
  basic_settings.foldl sStep (aStep h c)

/-- Pure effect of `setup_database` on contents in a healthy world. -/
def setupPure (h : String) (c : Contents) : Contents := fixPure h (ctPure c)

theorem filter_isEmpty_eq {α : Type} (p : α → Bool) (l : List α) :
    (l.filter p).isEmpty = ! l.any p := by
  induction l with
  | nil => rfl
  | cons a t ih => cases h : p a <;> simp [List.filter_cons, h, ih]

theorem ctStep_good (s : PoolState) (hp : s.poolExists = true)
    (hc : s.connectionError = false) (cnt : Nat) (c : Contents) (t : String) :
    ctStep wGood (cnt, s, c) t = (cnt + 1, s, addTable c t) := by
  simp [ctStep, bWrite_good s true 0 hp hc]

theorem create_tables_good (s : PoolState) (c : Contents)
    (hp : s.poolExists = true) (hc : s.connectionError = false) :
    create_tables wGood s c = (true, s, ctPure c) := by
  unfold create_tables ctPure tableNames
  rw [List.foldl_cons, ctStep_good s hp hc, List.foldl_cons,
    ctStep_good s hp hc, List.foldl_cons, ctStep_good s hp hc,
    List.foldl_cons, ctStep_good s hp hc, List.foldl_nil]
  simp [List.foldl]

theorem checkTablesStep_good (s : PoolState) (hp : s.poolExists = true)
    (hc : s.connectionError = false) (c : Contents) (t : String) :
    checkTablesStep wGood c s t = s := by
  simp [checkTablesStep, bSelect_good s _ hp hc]

theorem insertSettingStep_good (s : PoolState) (hp : s.poolExists = true)
    (hc : s.connectionError = false) (c : Contents) (kv : String × String) :
    insertSettingStep wGood (s, c) kv = (s, sStep c kv) := by
  rcases hf : c.settings.filter (fun p => p.1 == kv.1) with _ | ⟨q, qs⟩
  · have hany : c.settings.any (fun p => p.1 == kv.1) = false := by
      have := filter_isEmpty_eq (fun p => p.1 == kv.1) c.settings
      rw [hf] at this
      simpa using this.symm
    simp [insertSettingStep, bSelect_good s _ hp hc, hf, pyFalsy, hany,
      bWrite_good s _ 1 hp hc, sStep]
  · simp [insertSettingStep, bSelect_good s _ hp hc, hf, pyFalsy, sStep]

theorem sFold_good (s : PoolState) (hp : s.poolExists = true)
    (hc : s.connectionError = false) (l : List (String × String)) :
    ∀ c : Contents, l.foldl (insertSettingStep wGood) (s, c)
      = (s, l.foldl sStep c) := by
  induction l with
  | nil => intro c; rfl
  | cons kv t ih =>
    intro c
    rw [List.foldl_cons, List.foldl_cons, insertSettingStep_good s hp hc c kv, ih]

theorem checkFold_good (s : PoolState) (hp : s.poolExists = true)
    (hc : s.connectionError = false) (c : Contents) (l : List String) :
    l.foldl (checkTablesStep wGood c) s = s := by
  induction l with
  | nil => rfl
  | cons t ts ih => rw [List.foldl_cons, checkTablesStep_good s hp hc c t, ih]

theorem fix_good (s : PoolState) (c : Contents) (h : String)
    (hp : s.poolExists = true) (hc : s.connectionError = false) :
    fix_database_issues wGood h s c = (true, s, fixPure h c) := by
  rcases hf : c.admins.filter (fun a => a.username == "admin") with _ | ⟨q, qs⟩
  · have hany : c.admins.any (fun a => a.username == "admin") = false := by
      have := filter_isEmpty_eq (fun a => a.username == "admin") c.admins
      rw [hf] at this
      simpa using this.symm
    simp [fix_database_issues, is_connected_good s hp hc,
      checkFold_good s hp hc, bSelect_good s _ hp hc, hf, pyFalsy, hany,
      bWrite_good s _ 1 hp hc, sFold_good s hp hc, fixPure, aStep]
  · simp [fix_database_issues, is_connected_good s hp hc,
      checkFold_good s hp hc, bSelect_good s _ hp hc, hf, pyFalsy,
      sFold_good s hp hc, fixPure, aStep]

theorem setup_good (s : PoolState) (c : Contents) (h : String)
    (hp : s.poolExists = true) (hc : s.connectionError = false) :
    setup_database wGood h s c = ⟨true, s, setupPure h c, true⟩ := by
  simp [setup_database, is_connected_good s hp hc,
    create_tables_good s c hp hc, fix_good s (ctPure c) h hp hc, setupPure]

/-- A setting key is present. -/
def keyP (c : Contents) (k : String) : Bool :=
  c.settings.any (fun p => p.1 == k)

/-- A default-admin row (username `'admin'`) is present. -/
def admP (c : Contents) : Bool :=
  c.admins.any (fun a => a.username == "admin")

/-- A table is recorded. -/
def tblP (c : Contents) (t : String) : Bool := c.tables.contains t

theorem sStep_eq (c : Contents) (kv : String × String) :
    sStep c kv
      = if keyP c kv.1 then c else { c with settings := c.settings ++ [kv] } := by
  unfold sStep keyP
  rw [filter_isEmpty_eq]
  cases h : c.settings.any (fun p => p.1 == kv.1) <;> simp [h]

theorem aStep_eq (h : String) (c : Contents) :
    aStep h c
      = if admP c then c else { c with admins := c.admins ++ [defaultAdmin h] } := by
  unfold aStep admP
  rw [filter_isEmpty_eq]
  cases hx : c.admins.any (fun a => a.username == "admin") <;> simp [hx]

theorem sStep_key (c : Contents) (kv : String × String) :
    keyP (sStep c kv) kv.1 = true := by
  rw [sStep_eq]
  cases h : keyP c kv.1 <;> simp [h, keyP, List.any_append] at *
  simp [h]


theorem sStep_mono (c : Contents) (kv : String × String) (k : String)
    (hk : keyP c k = true) : keyP (sStep c kv) k = true := by
  rw [sStep_eq]
  cases h : keyP c kv.1
  · have hx : keyP { c with settings := c.settings ++ [kv] } k = true := by
      unfold keyP at hk ⊢
      rw [List.any_append, hk, Bool.true_or]
    simpa [h] using hx
  · simpa [h] using hk

theorem sStep_noop (c : Contents) (kv : String × String)
    (hk : keyP c kv.1 = true) : sStep c kv = c := by
  rw [sStep_eq, hk]
  rfl

theorem sStep_admins (c : Contents) (kv : String × String) :
    (sStep c kv).admins = c.admins := by
  rw [sStep_eq]; cases h : keyP c kv.1 <;> simp [h]

theorem sStep_tables (c : Contents) (kv : String × String) :
    (sStep c kv).tables = c.tables := by
  rw [sStep_eq]; cases h : keyP c kv.1 <;> simp [h]

theorem aStep_adm (h : String) (c : Contents) : admP (aStep h c) = true := by
  rw [aStep_eq]
  cases hx : admP c
  · have hy : admP { c with admins := c.admins ++ [defaultAdmin h] } = true := by
      unfold admP
      rw [List.any_append]
      simp [defaultAdmin]
    simpa [hx] using hy
  · simpa [hx] using hx

theorem aStep_noop (h : String) (c : Contents) (hx : admP c = true) :
    aStep h c = c := by
  rw [aStep_eq, hx]; rfl

theorem aStep_settings (h : String) (c : Contents) :
    (aStep h c).settings = c.settings := by
  rw [aStep_eq]; cases hx : admP c <;> simp [hx]

theorem aStep_tables (h : String) (c : Contents) :
    (aStep h c).tables = c.tables := by
  rw [aStep_eq]; cases hx : admP c <;> simp [hx]

theorem sFold_admins (l : List (String × String)) :
    ∀ c : Contents, (l.foldl sStep c).admins = c.admins := by
  induction l with
  | nil => intro c; rfl
  | cons kv t ih => intro c; rw [List.foldl_cons, ih, sStep_admins]

theorem sFold_tables (l : List (String × String)) :
    ∀ c : Contents, (l.foldl sStep c).tables = c.tables := by
  induction l with
  | nil => intro c; rfl
  | cons kv t ih => intro c; rw [List.foldl_cons, ih, sStep_tables]

theorem sFold_mono (l : List (String × String)) :
    ∀ (c : Contents) (k : String), keyP c k = true
      → keyP (l.foldl sStep c) k = true := by
  induction l with
  | nil => intro c k hk; exact hk
  | cons kv t ih =>
    intro c k hk
    rw [List.foldl_cons]
    exact ih _ k (sStep_mono c kv k hk)

theorem sFold_key (l : List (String × String)) :
    ∀ (c : Contents) (kv : String × String), kv ∈ l
      → keyP (l.foldl sStep c) kv.1 = true := by
  induction l with
  | nil => intro c kv hm; cases hm
  | cons a t ih =>
    intro c kv hm
    rw [List.foldl_cons]
    rcases List.mem_cons.mp hm with he | ht
    · subst he
      exact sFold_mono t _ kv.1 (sStep_key c kv)
    · exact ih _ kv ht

theorem sFold_noop (l : List (String × String)) :
    ∀ c : Contents, (∀ kv ∈ l, keyP c kv.1 = true) → l.foldl sStep c = c := by
  induction l with
  | nil => intro c _; rfl
  | cons a t ih =>
    intro c hall
    rw [List.foldl_cons, sStep_noop c a (hall a (List.mem_cons_self a t))]
    exact ih c (fun kv hm => hall kv (List.mem_cons_of_mem a hm))

theorem addTable_self (c : Contents) (t : String) :
    tblP (addTable c t) t = true := by
  unfold addTable tblP
  cases h : c.tables.contains t
  · simp [h]
  · simpa [h] using h

theorem addTable_mono (c : Contents) (t u : String)
    (hu : tblP c u = true) : tblP (addTable c t) u = true := by
  unfold addTable tblP at *
  have hm : u ∈ c.tables := by simpa using hu
  cases h : c.tables.contains t
  · simp [h, hm]
  · simpa [h] using hu

theorem addTable_noop (c : Contents) (t : String) (ht : tblP c t = true) :
    addTable c t = c := by
  unfold addTable
  unfold tblP at ht
  rw [ht]
  rfl

theorem addTable_admins (c : Contents) (t : String) :
    (addTable c t).admins = c.admins := by
  unfold addTable; cases h : c.tables.contains t <;> simp [h]

theorem addTable_settings (c : Contents) (t : String) :
    (addTable c t).settings = c.settings := by
  unfold addTable; cases h : c.tables.contains t <;> simp [h]

theorem tFold_mono (l : List String) :
    ∀ (c : Contents) (t : String), tblP c t = true
      → tblP (l.foldl addTable c) t = true := by
  induction l with
  | nil => intro c t ht; exact ht
  | cons a r ih =>
    intro c t ht
    rw [List.foldl_cons]
    exact ih _ t (addTable_mono c a t ht)

theorem tFold_self (l : List String) :
    ∀ (c : Contents) (t : String), t ∈ l
      → tblP (l.foldl addTable c) t = true := by
  induction l with
  | nil => intro c t hm; cases hm
  | cons a r ih =>
    intro c t hm
    rw [List.foldl_cons]
    rcases List.mem_cons.mp hm with he | hr
    · subst he
      exact tFold_mono r _ t (addTable_self c t)
    · exact ih _ t hr

theorem tFold_noop (l : List String) :
    ∀ c : Contents, (∀ t ∈ l, tblP c t = true) → l.foldl addTable c = c := by
  induction l with
  | nil => intro c _; rfl
  | cons a r ih =>
    intro c hall
    rw [List.foldl_cons, addTable_noop c a (hall a (List.mem_cons_self a r))]
    exact ih c (fun t hm => hall t (List.mem_cons_of_mem a hm))

theorem tFold_admins (l : List String) :
    ∀ c : Contents, (l.foldl addTable c).admins = c.admins := by
  induction l with
  | nil => intro c; rfl
  | cons a r ih => intro c; rw [List.foldl_cons, ih, addTable_admins]

theorem tFold_settings (l : List String) :
    ∀ c : Contents, (l.foldl addTable c).settings = c.settings := by
  induction l with
  | nil => intro c; rfl
  | cons a r ih => intro c; rw [List.foldl_cons, ih, addTable_settings]

theorem setupPure_idem (h1 h2 : String) (c : Contents) :
    setupPure h2 (setupPure h1 c) = setupPure h1 c := by
  have hc1 : setupPure h1 c = basic_settings.foldl sStep (aStep h1 (ctPure c)) := rfl
  have htab : (setupPure h1 c).tables = (ctPure c).tables := by
    rw [hc1, sFold_tables, aStep_tables]
  have hadmins : (setupPure h1 c).admins = (aStep h1 (ctPure c)).admins := by
    rw [hc1, sFold_admins]
  have htbl : ∀ t ∈ tableNames, tblP (setupPure h1 c) t = true := by
    intro t hm
    unfold tblP
    rw [htab]
    exact tFold_self tableNames c t hm
  have hct : ctPure (setupPure h1 c) = setupPure h1 c := tFold_noop tableNames _ htbl
  have hadm : admP (setupPure h1 c) = true := by
    unfold admP
    rw [hadmins]
    exact aStep_adm h1 (ctPure c)
  have hkeys : ∀ kv ∈ basic_settings, keyP (setupPure h1 c) kv.1 = true := by
    intro kv hm
    rw [hc1]
    exact sFold_key basic_settings _ kv hm
  show fixPure h2 (ctPure (setupPure h1 c)) = setupPure h1 c
  unfold fixPure
  rw [hct, aStep_noop h2 _ hadm]
  exact sFold_noop basic_settings _ hkeys

/-- Acquisition environment of a permanently unreachable server. -/
def failEnv : GetEnv := ⟨false, .exn "2003: Cannot connect to MySQL server"⟩

/-- Pool-state transition of one `get_connection` call against the
unreachable server. -/
def stepFail (s : PoolState) : PoolState := (get_connection s failEnv).state

/-- The state reached from `__init__` by four consecutive
`get_connection` calls against an unreachable server: four failed pool
initializations, `_error_count = 4 > _max_retries = 3`. -/
def degradedState : PoolState :=
  { poolExists := false, poolGen := 0, inited := false,
    connectionError := true, errorCount := 4, maxRetries := 3 }

/-- A healthy, initialized pool state (one successful construction, no
recorded errors). -/
def sReady : PoolState :=
  { poolExists := true, poolGen := 1, inited := true,
    connectionError := false, errorCount := 0, maxRetries := 3 }

/-- Empty database contents. -/
def c0 : Contents := ⟨[], [], []⟩

/-- Executor environment delivering a driver `Error` whose message is
exactly the `"MySQL Connection not available"` transient-fault
signature, on a healthy acquisition. -/
def ceEnv : ExecEnv (List String) :=
  ⟨⟨true, .ok⟩, .fault (.dbError "MySQL Connection not available"), false⟩

/-- The same transient-signature driver `Error` environment for the
write entry point. -/
def ceEnvW : ExecEnv Nat :=
  ⟨⟨true, .ok⟩, .fault (.dbError "MySQL Connection not available"), false⟩

theorem exec_select_shape (α : Type) (s : PoolState) (e : ExecEnv α) :
    (execute_select s e).raised = false
    ∧ (execute_select s e).connCloseTried = (execute_select s e).connAcquired := by
  unfold execute_select
  cases hg : (get_connection s e.genv).conn
  · simp [hg]
  · rcases hs : e.stmt with v | f
    · simp [hg, hs]
    · rcases f with m | m
      · by_cases hm : hasSig m = true <;> simp [hg, hs, hm]
      · simp [hg, hs]

theorem exec_write_shape (s : PoolState) (e : ExecEnv Nat) :
    (execute_write s e).raised = false
    ∧ (execute_write s e).connCloseTried = (execute_write s e).connAcquired := by
  unfold execute_write
  cases hg : (get_connection s e.genv).conn
  · simp [hg]
  · rcases hs : e.stmt with v | f
    · simp [hg, hs]
    · rcases f with m | m
      · by_cases hm : hasSig m = true <;> simp [hg, hs, hm]
      · simp [hg, hs]

/-- Claim C1, counterexample.  `degradedState` is exactly the state
produced by four consecutive failed `get_connection` calls from the
`__init__` state (failure counter 4, past the ceiling of 3, no repair
since), yet a further `get_connection` call, while it does return the
`None` sentinel, attempts a pool construction — network I/O — rather
than short-circuiting: the claim's "without attempting any network I/O"
is false. -/
theorem ceiling_gate_attempts_io_cx :
    degradedState = stepFail (stepFail (stepFail (stepFail dbInitState)))
    ∧ degradedState.maxRetries < degradedState.errorCount
    ∧ degradedState.connectionError = true
    ∧ (get_connection degradedState failEnv).conn = none
    ∧ (get_connection degradedState failEnv).initNet = true := by
  decide

/-- Claim C1, amended.  Once the pool is uninitialized and the failure
counter has exceeded the retry ceiling, every further `get_connection`
call still attempts pool initialization (network I/O); when the server
is still unreachable the call returns the `None` sentinel and increments
the counter.  The counter gate never suppresses the initialization
attempt in this state; only the "returns Unavailable" half of the
original claim holds. -/
theorem get_connection_past_ceiling_still_attempts_init
    (s : PoolState) (e : GetEnv) (hp : s.poolExists = false)
    (hi : s.inited = false) (_hcl : s.maxRetries < s.errorCount)
    (he : e.initOk = false) :
    (get_connection s e).conn = none
    ∧ (get_connection s e).initNet = true
    ∧ (get_connection s e).state.errorCount = s.errorCount + 1 := by
  simp [get_connection, init_pool, hp, hi, he]

theorem get_connection_past_ceiling_still_attempts_init_w :
    (get_connection degradedState failEnv).conn = none
    ∧ (get_connection degradedState failEnv).initNet = true
    ∧ (get_connection degradedState failEnv).state.errorCount
        = degradedState.errorCount + 1 :=
  get_connection_past_ceiling_still_attempts_init degradedState failEnv
    rfl rfl (by decide) rfl

/-- Claim C2.  For every pool state and every driver behaviour —
acquisition failure, statement `Error`, any other exception, and
failures of the cleanup `close()` calls themselves — `execute_select`
and `execute_write` never let an exception escape (`raised = false`;
their `except Error` / `except Exception` clauses cover every fault),
and the `finally` block attempts connection/cursor release exactly on
the paths where a connection was acquired. -/
theorem executor_never_raises_and_releases (α : Type) (s : PoolState)
    (e1 : ExecEnv α) (e2 : ExecEnv Nat) :
    (execute_select s e1).raised = false
    ∧ (execute_select s e1).connCloseTried = (execute_select s e1).connAcquired
    ∧ (execute_write s e2).raised = false
    ∧ (execute_write s e2).connCloseTried = (execute_write s e2).connAcquired :=
  ⟨(exec_select_shape α s e1).1, (exec_select_shape α s e1).2,
   (exec_write_shape s e2).1, (exec_write_shape s e2).2⟩

/-- Claim C3, counterexample.  When `execute_select` returns the `None`
sentinel, the public projects listing handler `get_projects` responds
with HTTP 200 and a success envelope carrying an empty list — not the
503 error envelope the claim asserts. -/
theorem get_projects_sentinel_is_200_cx :
    (get_projects none).status = 200
    ∧ (get_projects none).success = true
    ∧ ¬ (get_projects none).status = 503 := by
  decide

/-- Claim C3, amended.  The inquiry handler `create_project_request`
does translate the `None` sentinel into a 503 JSON error envelope, but
the public projects listing handler `get_projects` always answers the
sentinel with a 200 success envelope and an empty list, presenting an
unavailable database as "no projects". -/
theorem sentinel_handler_statuses (res : Option (List Project)) (d : ReqData)
    (hn : falsyStr d.name = false) (he : falsyStr d.email = false)
    (hd : falsyStr d.description = false) :
    (get_projects res).status = 200
    ∧ (get_projects res).success = true
    ∧ (create_project_request d none).status = 503
    ∧ (create_project_request d none).success = false
    ∧ (create_project_request d none).errorField
        = some "فشل في حفظ الطلب - قاعدة البيانات غير متاحة" := by
  rcases res with _ | ps <;>
    simp [get_projects, create_project_request, create_response, hn, he, hd]

theorem sentinel_handler_statuses_w :
    (get_projects none).status = 200
    ∧ (get_projects none).success = true
    ∧ (create_project_request ⟨some "Ali", some "a@b.example", none, some "A site"⟩
        none).status = 503
    ∧ (create_project_request ⟨some "Ali", some "a@b.example", none, some "A site"⟩
        none).success = false
    ∧ (create_project_request ⟨some "Ali", some "a@b.example", none, some "A site"⟩
        none).errorField = some "فشل في حفظ الطلب - قاعدة البيانات غير متاحة" :=
  sentinel_handler_statuses none ⟨some "Ali", some "a@b.example", none, some "A site"⟩
    (by decide) (by decide) (by decide)

/-- Claim C4, counterexample.  A driver error whose message is exactly
the transient-fault signature `"MySQL Connection not available"`, hitting
either Query Executor entry point (`execute_select` or `execute_write`)
on a healthy pool, does invoke `_init_pool` — but the pool is *not*
rebuilt: `_init_pool` returns immediately because `self.pool` still
exists, so the state (including the construction counter `poolGen`) is
unchanged.  The claim's "the pool is rebuilt" is false. -/
theorem transient_sig_no_rebuild_cx :
    ((execute_select sReady ceEnv).initPoolCalled = true
    ∧ (execute_select sReady ceEnv).result = none
    ∧ (execute_select sReady ceEnv).state = sReady
    ∧ (execute_select sReady ceEnv).state.poolGen = sReady.poolGen)
    ∧ ((execute_write sReady ceEnvW).initPoolCalled = true
    ∧ (execute_write sReady ceEnvW).result = none
    ∧ (execute_write sReady ceEnvW).state = sReady
    ∧ (execute_write sReady ceEnvW).state.poolGen = sReady.poolGen) := by
  decide

/-- Claim C4, amended.  On a driver `Error` raised over an acquired
connection from an existing pool, both Query Executor entry points —
`execute_select` and `execute_write` — return the `None` sentinel,
invoke the `_init_pool` hook exactly when the message matches a
transient-fault signature, and leave the pool state unchanged either way
(no rebuild happens, because `_init_pool` short-circuits on an existing
pool); a non-`Error` exception never invokes the hook in either
entry point. -/
theorem transient_sig_hook_noop (s : PoolState) (ini : Bool) (m : String)
    (cf : Bool) (hp : s.poolExists = true) (hc : s.connectionError = false) :
    ((execute_select (α := List String) s
        ⟨⟨ini, .ok⟩, .fault (.dbError m), cf⟩).result = none
    ∧ (execute_select (α := List String) s
        ⟨⟨ini, .ok⟩, .fault (.dbError m), cf⟩).initPoolCalled = hasSig m
    ∧ (execute_select (α := List String) s
        ⟨⟨ini, .ok⟩, .fault (.dbError m), cf⟩).state = s
    ∧ (execute_select (α := List String) s
        ⟨⟨ini, .ok⟩, .fault (.otherExn m), cf⟩).initPoolCalled = false)
    ∧ ((execute_write s
        ⟨⟨ini, .ok⟩, .fault (.dbError m), cf⟩).result = none
    ∧ (execute_write s
        ⟨⟨ini, .ok⟩, .fault (.dbError m), cf⟩).initPoolCalled = hasSig m
    ∧ (execute_write s
        ⟨⟨ini, .ok⟩, .fault (.dbError m), cf⟩).state = s
    ∧ (execute_write s
        ⟨⟨ini, .ok⟩, .fault (.otherExn m), cf⟩).initPoolCalled = false) := by
  have hg : get_connection s ⟨ini, .ok⟩ = ⟨some (), s, false, true⟩ := by
    simp [get_connection, getConnRest, hp, hc]
  by_cases hm : hasSig m = true <;>
    simp [execute_select, execute_write, hg, hm, init_pool, hp]

theorem transient_sig_hook_noop_w :
    ((execute_select (α := List String) sReady
        ⟨⟨true, .ok⟩, .fault (.dbError "bytearray index out of range"), false⟩).result
        = none
    ∧ (execute_select (α := List String) sReady
        ⟨⟨true, .ok⟩, .fault (.dbError "bytearray index out of range"), false⟩).initPoolCalled
        = hasSig "bytearray index out of range"
    ∧ (execute_select (α := List String) sReady
        ⟨⟨true, .ok⟩, .fault (.dbError "bytearray index out of range"), false⟩).state
        = sReady
    ∧ (execute_select (α := List String) sReady
        ⟨⟨true, .ok⟩, .fault (.otherExn "bytearray index out of range"), false⟩).initPoolCalled
        = false)
    ∧ ((execute_write sReady
        ⟨⟨true, .ok⟩, .fault (.dbError "bytearray index out of range"), false⟩).result
        = none
    ∧ (execute_write sReady
        ⟨⟨true, .ok⟩, .fault (.dbError "bytearray index out of range"), false⟩).initPoolCalled
        = hasSig "bytearray index out of range"
    ∧ (execute_write sReady
        ⟨⟨true, .ok⟩, .fault (.dbError "bytearray index out of range"), false⟩).state
        = sReady
    ∧ (execute_write sReady
        ⟨⟨true, .ok⟩, .fault (.otherExn "bytearray index out of range"), false⟩).initPoolCalled
        = false) :=
  transient_sig_hook_noop sReady true "bytearray index out of range" false rfl rfl

/-- Claim C5.  With the database unreachable, the `is_connected` health
probe fails, so `setup_database` returns `False`, attempts none of the
table-creation write statements, and leaves the database contents
untouched; the embedding is total, mirroring the `try/except` that lets
no exception escape. -/
theorem setup_database_unreachable_bails (w : World) (h : String)
    (s : PoolState) (c : Contents) (hw : w.reachable = false) :
    (setup_database w h s c).ok = false
    ∧ (setup_database w h s c).createAttempted = false
    ∧ (setup_database w h s c).contents = c := by
  have hn := get_connection_unreachable s w hw
  have hc : (is_connected s w).1 = false := by
    simp [is_connected, hn]
  simp [setup_database, hc]

theorem setup_database_unreachable_bails_w :
    (setup_database ⟨false, true, true⟩ "h" dbInitState c0).ok = false
    ∧ (setup_database ⟨false, true, true⟩ "h" dbInitState c0).createAttempted = false
    ∧ (setup_database ⟨false, true, true⟩ "h" dbInitState c0).contents = c0 :=
  setup_database_unreachable_bails ⟨false, true, true⟩ "h" dbInitState c0 rfl

/-- Claim C6.  Against a healthy pool and reachable database, running
the bootstrap sequence (`setup_database`: table creation plus the
default-admin/default-settings repair pass) a second time from the state
and contents the first run produced changes nothing: the second run's
output equals the first run's output, so in particular no duplicate
default-admin row and no duplicate default-setting rows are created —
the check-before-insert guards and `CREATE TABLE IF NOT EXISTS` make the
sequence idempotent.  (`h1`, `h2` are the two runs' salted bcrypt
hashes.) -/
theorem bootstrap_idempotent (s : PoolState) (c : Contents) (h1 h2 : String)
    (hp : s.poolExists = true) (hc : s.connectionError = false) :
    setup_database wGood h2 (setup_database wGood h1 s c).state
        (setup_database wGood h1 s c).contents
      = setup_database wGood h1 s c := by
  simp only [setup_good s c h1 hp hc]
  rw [setup_good s (setupPure h1 c) h2 hp hc, setupPure_idem h1 h2 c]

theorem bootstrap_idempotent_w :
    setup_database wGood "k2" (setup_database wGood "k1" sReady c0).state
        (setup_database wGood "k1" sReady c0).contents
      = setup_database wGood "k1" sReady c0 :=
  bootstrap_idempotent sReady c0 "k1" "k2" rfl rfl

/-- Claim C7.  From a state in which the pool is uninitialized and the
failure counter has exceeded the retry ceiling, with the database now
reachable, the repair operation (`setup_database`, as invoked by the
`/api/admin/fix-database` endpoint) succeeds: its first health probe
rebuilds the pool (`poolGen` increments), the failure counter resets to
zero, and a subsequent `get_connection` hands out a connection instead
of the `None` sentinel. -/
theorem repair_resets_counter_and_recovers (s : PoolState) (c : Contents)
    (h : String) (hp : s.poolExists = false) (hi : s.inited = false)
    (_hcl : s.maxRetries < s.errorCount) :
    (setup_database wGood h s c).ok = true
    ∧ (setup_database wGood h s c).state.errorCount = 0
    ∧ (setup_database wGood h s c).state.poolExists = true
    ∧ (setup_database wGood h s c).state.poolGen = s.poolGen + 1
    ∧ (get_connection (setup_database wGood h s c).state (envOf wGood)).conn
        = some () := by
  have h1 : is_connected s wGood = (true, reInit s) := is_connected_uninit s hp hi
  have hsetup : setup_database wGood h s c = ⟨true, reInit s, setupPure h c, true⟩ := by
    simp [setup_database, h1, create_tables_good (reInit s) c rfl rfl,
      fix_good (reInit s) (ctPure c) h rfl rfl, setupPure]
  rw [hsetup]
  exact ⟨rfl, rfl, rfl, rfl, by rw [goodGetW (reInit s) rfl rfl]⟩

theorem repair_resets_counter_and_recovers_w :
    (setup_database wGood "h" degradedState c0).ok = true
    ∧ (setup_database wGood "h" degradedState c0).state.errorCount = 0
    ∧ (setup_database wGood "h" degradedState c0).state.poolExists = true
    ∧ (setup_database wGood "h" degradedState c0).state.poolGen
        = degradedState.poolGen + 1
    ∧ (get_connection (setup_database wGood "h" degradedState c0).state
        (envOf wGood)).conn = some () :=
  repair_resets_counter_and_recovers degradedState c0 "h" rfl rfl (by decide)

/-- Claim C8.  Whenever a connection is acquired and the statement
executes without fault, `execute_write` returns exactly the rowcount the
driver reported — in particular `0` (the integer, not the `None`
sentinel) for an update matching zero rows, and `1` for a
single-row insert. -/
theorem execute_write_returns_rowcount (s : PoolState) (ge : GetEnv)
    (n : Nat) (cf : Bool) (h : (get_connection s ge).conn = some ()) :
    (execute_write s ⟨ge, .ok n, cf⟩).result = some n := by
  simp [execute_write, h]

theorem execute_write_returns_rowcount_w :
    (get_connection sReady ⟨true, .ok⟩).conn = some ()
    ∧ (execute_write sReady ⟨⟨true, .ok⟩, .ok 0, false⟩).result = some 0
    ∧ (execute_write sReady ⟨⟨true, .ok⟩, .ok 1, false⟩).result = some 1 :=
  ⟨by decide,
   execute_write_returns_rowcount sReady ⟨true, .ok⟩ 0 false (by decide),
   execute_write_returns_rowcount sReady ⟨true, .ok⟩ 1 false (by decide)⟩

/-- Claim C9 (implicit).  `setup_database` returns `True` whenever its
initial `is_connected` probe succeeds, regardless of what the
table-creation and repair steps do — their boolean results are ignored —
and the `/api/admin/fix-database` endpoint then reports a 200 success
envelope.  The witness instantiates a world in which every SELECT and
every write statement fails, yet the bootstrap still reports success. -/
theorem setup_database_true_whenever_probe_ok (w : World) (h : String)
    (s : PoolState) (c : Contents) (hprobe : (is_connected s w).1 = true) :
    (setup_database w h s c).ok = true
    ∧ (fix_database (setup_database w h s c).ok).status = 200
    ∧ (fix_database (setup_database w h s c).ok).success = true := by
  have hok : (setup_database w h s c).ok = true := by
    simp [setup_database, hprobe]
  rw [hok]
  exact ⟨rfl, rfl, rfl⟩

theorem setup_database_true_whenever_probe_ok_w :
    (is_connected sReady ⟨true, false, false⟩).1 = true
    ∧ (setup_database ⟨true, false, false⟩ "x" sReady c0).ok = true
    ∧ (fix_database (setup_database ⟨true, false, false⟩ "x" sReady c0).ok).status
        = 200 :=
  ⟨by decide,
   (setup_database_true_whenever_probe_ok ⟨true, false, false⟩ "x" sReady c0
     (by decide)).1,
   (setup_database_true_whenever_probe_ok ⟨true, false, false⟩ "x" sReady c0
     (by decide)).2.1⟩

/-- Claim C10 (implicit).  The root route redirects to the maintenance
page exactly when the `maintenance_mode` SELECT produced a first row
whose value is the string `'enabled'`; every other outcome — another
value, the empty string, a NULL value, no rows, or the `None` sentinel
of an unavailable database — serves the normal home page, i.e.
unavailability is treated as maintenance mode disabled. -/
theorem main_index_redirects_iff_enabled (res : Option (List (Option String))) :
    main_index res = Page.maintenanceRedirect
      ↔ ∃ rest : List (Option String), res = some (some "enabled" :: rest) := by
  rcases res with _ | l
  · simp [main_index]
  · rcases l with _ | ⟨v, rest⟩
    · simp [main_index]
    · rcases v with _ | sv
      · simp [main_index]
      · by_cases h0 : sv = ""
        · subst h0
          simp [main_index]
        · by_cases h1 : sv = "enabled"
          · subst h1
            simp [main_index]
          · have hb0 : (sv == "") = false := beq_eq_false_iff_ne.mpr h0
            have hb1 : (sv == "enabled") = false := beq_eq_false_iff_ne.mpr h1
            simp [main_index, hb0, hb1, h1]
